import Mathlib

/-
  Verification development for the live-mapper repository.

  The whole core of the program is the React component in
  src/frontend/src/App.tsx: a polling/render loop that fetches a vehicle
  status JSON snapshot, keeps it in component state, and mirrors it into a
  single map marker.  This file gives a shallow embedding of that
  component: its data shapes, the fetch boundary (success / timeout /
  network / non-2xx / parse failure), the marker-update effect, the map
  initialization, and an event-step semantics for the component lifecycle.

  JavaScript numbers are modelled as exact rationals (ℚ); the program
  performs no arithmetic on them, only equality comparisons and storage,
  so none of the floating-point-specific behavior is load-bearing.
  Non-integer numeric constants from the source are written with mkRat
  (e.g. 18.50841 is mkRat 1850841 100000).
-/

namespace LiveMapper

/-- The nested location object of the VehicleData interface
(App.tsx lines 14-19). -/
structure Location where
  updated : String
  longitude : ℚ
  latitude : ℚ
  position_description : String

/-- The inner object of the VehicleData interface (App.tsx lines 7-20),
i.e. the value of the top-level field named data. -/
structure VehicleFix where
  event_ts : String
  bearing : ℚ
  speed : ℚ
  ignition : Bool
  odometer : ℚ
  altitude : ℚ
  location : Location

/-- The VehicleData interface (App.tsx lines 6-21): the parsed response
body is an object with a single relevant top-level field, data. -/
structure VehicleData where
  data : VehicleFix

/-- A value thrown inside the try block of fetchVehicleData: either a JS
Error (with its name and message) or a non-Error value. -/
inductive Thrown where
  | jsError (name : String) (message : String)
  | other

/-- The AbortError raised when the 5-second timer calls controller.abort()
(App.tsx lines 37-38). -/
def abortError : Thrown := Thrown.jsError ("AbortError") ("signal is aborted without reason")

/-- Environment behavior of one fetch attempt, as seen at the await
points of fetchVehicleData: the request is aborted by the 5-second
deadline, rejects with some thrown value (network failure), or yields
a response with an ok flag and a body whose JSON parse either succeeds
or throws. -/
inductive FetchBehavior where
  | timeout
  | reject (t : Thrown)
  | respond (ok : Bool) (parsed : Except Thrown VehicleData)

/-- The try block of fetchVehicleData (App.tsx lines 36-49): an aborted
fetch surfaces as a thrown AbortError; a rejected fetch rethrows the
rejection; a non-2xx response throws Error with the fixed message; an ok
response yields the parse result of response.json(). -/
def runFetch : FetchBehavior → Except Thrown VehicleData
  | .timeout => .error abortError
  | .reject t => .error t
  | .respond ok parsed =>
      if ok then parsed
      else .error (Thrown.jsError ("Error") ("Failed to fetch vehicle data"))

/-- The catch block of fetchVehicleData (App.tsx lines 50-56): an Error
named AbortError gets the fixed timeout message; any other Error gets its
own message; a non-Error thrown value gets the fixed fallback message. -/
def errorMessageFor : Thrown → String
  | .jsError name message =>
      if name = "AbortError" then "Request timeout - API is slow" else message
  | .other => "Unknown error"

/-- fetchVehicleData (App.tsx lines 35-58) acting on the component state
it touches.  Input: current vehicleData and error state and the fetch
behavior; output: new vehicleData state, new error state, and the
function's return value (the data on success, null on failure). -/
def fetchVehicleData (vehicleData : Option VehicleData) (error : Option String)
    (b : FetchBehavior) : Option VehicleData × Option String × Option VehicleData :=
  match runFetch b with
  | .ok d => (some d, none, some d)
  | .error t => (vehicleData, some (errorMessageFor t), none)

/-- One raster tile source of the map style (App.tsx lines 69-75). -/
structure TileSource where
  id : String
  srcType : String
  tiles : List String
  tileSize : ℚ
  attribution : String
  maxzoom : ℚ

/-- One layer of the map style (App.tsx lines 78-84). -/
structure MapLayer where
  id : String
  layerType : String
  source : String
  minzoom : ℚ
  maxzoom : ℚ

/-- Arguments of one map.flyTo invocation (App.tsx lines 160-164). -/
structure FlyTo where
  center : ℚ × ℚ
  zoom : ℚ
  duration : ℚ

/-- The maplibre map object as configured and mutated by the component:
style sources and layers, viewport, zoom bounds, added controls, the
record of flyTo invocations, and whether remove() has been called. -/
structure MapHandle where
  sources : List TileSource
  layers : List MapLayer
  center : ℚ × ℚ
  zoom : ℚ
  maxZoom : ℚ
  minZoom : ℚ
  controls : List (String × String)
  flyTos : List FlyTo
  removed : Bool

/-- The osm-tiles raster source from the style object (App.tsx 69-75). -/
def osmTiles : TileSource :=
  { id := "osm-tiles"
    srcType := "raster"
    tiles := ["https://tile.openstreetmap.org/\x7bz\x7d/\x7bx\x7d/\x7by\x7d.png"]
    tileSize := 256
    attribution := "© OpenStreetMap contributors"
    maxzoom := 19 }

/-- The map constructed in the map-init effect (App.tsx lines 64-93),
including the NavigationControl added bottom-right immediately after
construction.  Center 18.50841, -33.827274 (default to Cape Town). -/
def initMap : MapHandle :=
  { sources := [osmTiles]
    layers := [{ id := "osm-tiles", layerType := "raster", source := "osm-tiles",
                 minzoom := 0, maxzoom := 19 }]
    center := (mkRat 1850841 100000, mkRat (-33827274) 1000000)
    zoom := 12
    maxZoom := 19
    minZoom := 2
    controls := [("NavigationControl", "bottom-right")]
    flyTos := []
    removed := false }

/-- The marker popup (App.tsx lines 141-150): offset and HTML content. -/
structure Popup where
  offset : ℚ
  html : String

/-- The maplibre marker as the component configures it: the custom
element HTML, the ignition-keyed color, current coordinates, attached
popup, and a count of setLngLat invocations on it. -/
structure Marker where
  elementHtml : String
  color : String
  lngLat : ℚ × ℚ
  popup : Popup
  setLngLatCalls : ℕ

/-- The ignition-keyed marker color (App.tsx line 135). -/
def markerColor (ignition : Bool) : String :=
  if ignition then "#10B981" else "#EF4444"

/-- The custom marker element innerHTML (App.tsx lines 133-138),
whitespace condensed. -/
def markerElementHtml (ignition : Bool) : String :=
  "<div class=\"flex items-center justify-center w-10 h-10 rounded-full shadow-lg transition-transform hover:scale-110\" style=\"background-color: "
    ++ markerColor ignition
    ++ "\"><span class=\"text-2xl\">🚗</span></div>"

/-- The popup HTML template (App.tsx lines 141-150), whitespace
condensed; speed, ignition and position description are spliced in. -/
def popupHtml (speed : ℚ) (ignition : Bool) (position_description : String) : String :=
  "<div class=\"p-3\"><h3 class=\"font-bold text-lg mb-2\">Vehicle Status</h3><div class=\"space-y-1 text-sm\"><p><strong>Speed:</strong> "
    ++ toString speed
    ++ " km/h</p><p><strong>Ignition:</strong> <span class=\""
    ++ (if ignition then "text-green-600" else "text-red-600")
    ++ "\">"
    ++ (if ignition then "On" else "Off")
    ++ "</span></p><p><strong>Location:</strong> "
    ++ position_description
    ++ "</p></div></div>"

/-- The positionChanged test (App.tsx lines 114-117): true when there is
no last position or either coordinate differs. -/
def positionChanged (lastPosition : Option (ℚ × ℚ)) (longitude latitude : ℚ) : Bool :=
  match lastPosition with
  | none => true
  | some p => (p.1 != longitude) || (p.2 != latitude)

/-- The marker-update effect body (App.tsx lines 107-166).  Inputs are
the refs and state it reads (map.current, vehicleData, marker.current,
lastPosition.current); outputs are the new values of map.current,
marker.current and lastPosition.current.  If the map or the data is
missing it returns early; with a marker present it moves it only when
the position changed; with no marker it creates one (element, popup,
one setLngLat via the builder) and performs the one-time flyTo. -/
def updateMarkerEffect (mapH : Option MapHandle) (vehicleData : Option VehicleData)
    (marker : Option Marker) (lastPosition : Option (ℚ × ℚ)) :
    Option MapHandle × Option Marker × Option (ℚ × ℚ) :=
  match mapH, vehicleData with
  | some m, some vd =>
      let longitude := vd.data.location.longitude
      let latitude := vd.data.location.latitude
      match marker with
      | some mk =>
          if positionChanged lastPosition longitude latitude then
            (some m,
             some { mk with lngLat := (longitude, latitude),
                            setLngLatCalls := mk.setLngLatCalls + 1 },
             some (longitude, latitude))
          else
            (some m, some mk, lastPosition)
      | none =>
          (some { m with flyTos := m.flyTos ++
                    [{ center := (longitude, latitude), zoom := 14, duration := 2000 }] },
           some { elementHtml := markerElementHtml vd.data.ignition
                  color := markerColor vd.data.ignition
                  lngLat := (longitude, latitude)
                  popup := { offset := 25,
                             html := popupHtml vd.data.speed vd.data.ignition
                               vd.data.location.position_description }
                  setLngLatCalls := 1 },
           some (longitude, latitude))
  | _, _ => (mapH, marker, lastPosition)

/-- The component-local state of App plus the refs it owns (App.tsx
lines 26-32), and whether the component is currently mounted. -/
structure AppState where
  mounted : Bool
  mapH : Option MapHandle
  marker : Option Marker
  vehicleData : Option VehicleData
  loading : Bool
  error : Option String
  lastPosition : Option (ℚ × ℚ)
  intervalActive : Bool

/-- State before mount: refs null, vehicleData null, loading true,
error null (App.tsx lines 26-32). -/
def initState : AppState :=
  { mounted := false
    mapH := none
    marker := none
    vehicleData := none
    loading := true
    error := none
    lastPosition := none
    intervalActive := false }

/-- One callback turn of the event loop driving the component: mount
(the two setup effects run), the map load event, the settlement of a
fetch with a given behavior, an interval tick, or unmount (the effect
cleanups run). -/
inductive Event where
  | mount
  | mapLoad
  | fetchSettle (b : FetchBehavior)
  | tick
  | unmount

/-- Run the marker-update effect (App.tsx lines 107-166) against the
state, writing back map.current, marker.current, lastPosition.current. -/
def applyMarkerEffect (s : AppState) : AppState :=
  let r := updateMarkerEffect s.mapH s.vehicleData s.marker s.lastPosition
  { s with mapH := r.1, marker := r.2.1, lastPosition := r.2.2 }

/-- The component's reaction to one event.
Mount (App.tsx 61-104, 169-175): creates the map unless map.current is
already set, registers the load handler, and installs the 15-second
interval.  Map load (96-99): clears loading and starts the first fetch.
Fetch settlement (35-58, 107-166): on success stores the new snapshot,
clears the error, and the marker-update effect runs because vehicleData
changed; on failure only sets the error message; React ignores state
updates after unmount.  Tick (170-172): starts another fetch (settled by
a later fetchSettle event); no state change at the tick itself.
Unmount (101-103, 174): calls map.remove() and clearInterval; the refs
themselves are not nulled. -/
def step (s : AppState) : Event → AppState
  | .mount =>
      if s.mounted then s
      else
        let s1 : AppState := { s with mounted := true }
        let s2 : AppState := if s1.mapH.isSome then s1 else { s1 with mapH := some initMap }
        { s2 with intervalActive := true }
  | .mapLoad =>
      if s.mounted then { s with loading := false } else s
  | .fetchSettle b =>
      if s.mounted then
        match runFetch b with
        | .ok d => applyMarkerEffect { s with vehicleData := some d, error := none }
        | .error t => { s with error := some (errorMessageFor t) }
      else s
  | .tick => s
  | .unmount =>
      { s with mounted := false
               intervalActive := false
               mapH := Option.map (fun m => { m with removed := true }) s.mapH }

/-- Fold a list of events over a state. -/
def run (s : AppState) (evts : List Event) : AppState :=
  evts.foldl step s

/-- Number of flyTo invocations recorded on the current map handle. -/
def flyCount (s : AppState) : ℕ :=
  match s.mapH with
  | some m => m.flyTos.length
  | none => 0

/-- The poll period of the setInterval call (App.tsx line 172). -/
def pollIntervalMs : ℕ := 15000

/-- Timed model of the poll scheduler (App.tsx lines 169-175): the
interval is installed when the mount effect runs (time 0) and cleared by
the effect cleanup at unmount; it fires at every positive multiple of
15000 ms before the unmount time.  Nothing in the effect conditions the
interval on the map's load event or on any fetch. -/
def schedulerFires (unmountAt : Option ℕ) (t : ℕ) : Bool :=
  decide (t % pollIntervalMs = 0) && decide (t ≠ 0) &&
    (match unmountAt with
     | none => true
     | some u => decide (t < u))

/-- Time of the first manual fetch: the map load handler (App.tsx lines
96-99) invokes fetchVehicleData when the environment fires the load
event, at a time the code does not bound. -/
def firstManualFetchTime (mapLoadAt : ℕ) : ℕ := mapLoadAt

/-- A JSON value, for stating what response body shapes the frontend's
interface describes. -/
inductive Json where
  | null
  | bool (b : Bool)
  | num (q : ℚ)
  | str (s : String)
  | arr (elements : List Json)
  | obj (fields : List (String × Json))

/-- First member of a JSON object with the given key. -/
def getField : List (String × Json) → String → Option Json
  | [], _ => none
  | (k, v) :: rest, key => if k = key then some v else getField rest key

/-- The member exists and is a string. -/
def isStr : Option Json → Bool
  | some (.str _) => true
  | _ => false

/-- The member exists and is a number. -/
def isNum : Option Json → Bool
  | some (.num _) => true
  | _ => false

/-- The member exists and is a boolean. -/
def isBool : Option Json → Bool
  | some (.bool _) => true
  | _ => false

/-- Shape of the nested location object per the code's interface
(App.tsx lines 14-19); TypeScript interfaces are structural, so extra
members are allowed. -/
def matchesLocationShape : Json → Bool
  | .obj fs =>
      isStr (getField fs ("updated")) && isNum (getField fs ("longitude")) &&
      isNum (getField fs ("latitude")) && isStr (getField fs ("position_description"))
  | _ => false

/-- Shape of the inner object (the value of the data member) per the
code's interface (App.tsx lines 7-20). -/
def matchesFixShape : Json → Bool
  | .obj fs =>
      isStr (getField fs ("event_ts")) && isNum (getField fs ("bearing")) &&
      isNum (getField fs ("speed")) && isBool (getField fs ("ignition")) &&
      isNum (getField fs ("odometer")) && isNum (getField fs ("altitude")) &&
      (match getField fs ("location") with
       | some l => matchesLocationShape l
       | _ => false)
  | _ => false

/-- Shape of the whole parsed response body per the code's interface
VehicleData (App.tsx lines 6-21): one top-level member named data
holding the status fields. -/
def matchesVehicleDataShape : Json → Bool
  | .obj fs =>
      match getField fs ("data") with
      | some d => matchesFixShape d
      | _ => false
  | _ => false

/-- Written from the words of the spec alone (section 3): VehicleStatus
is a top-level object with members event_ts, bearing, speed, ignition,
odometer, altitude and a nested location object with updated, longitude,
latitude, position_description — no wrapper member. -/
def specVehicleStatusShape : Json → Bool
  | .obj fs =>
      isStr (getField fs ("event_ts")) && isNum (getField fs ("bearing")) &&
      isNum (getField fs ("speed")) && isBool (getField fs ("ignition")) &&
      isNum (getField fs ("odometer")) && isNum (getField fs ("altitude")) &&
      (match getField fs ("location") with
       | some (.obj ls) =>
           isStr (getField ls ("updated")) && isNum (getField ls ("longitude")) &&
           isNum (getField ls ("latitude")) && isStr (getField ls ("position_description"))
       | _ => false)
  | _ => false

/-- A concrete fix used as sample data: the first example scenario of
the spec (section 8). -/
def fixEx : VehicleData :=
  { data :=
    { event_ts := "2025-01-01T00:00:00Z"
      bearing := 0
      speed := 0
      ignition := false
      odometer := 0
      altitude := 0
      location :=
        { updated := "2025-01-01T00:00:00Z"
          longitude := mkRat 185 10
          latitude := mkRat (-339) 10
          position_description := "Home" } } }

/-- A marker as the component would create it from fixEx. -/
def markerEx : Marker :=
  { elementHtml := markerElementHtml false
    color := markerColor false
    lngLat := (mkRat 185 10, mkRat (-339) 10)
    popup := { offset := 25, html := popupHtml 0 false ("Home") }
    setLngLatCalls := 1 }

/-- A state in which a marker exists: mount, map load, then one
successful fetch of fixEx. -/
def stateWithMarker : AppState :=
  run initState
    [Event.mount, Event.mapLoad, Event.fetchSettle (FetchBehavior.respond true (Except.ok fixEx))]

/-- A flat JSON body that matches the spec's section 3 shape exactly. -/
def jFlat : Json :=
  Json.obj
    [("event_ts", Json.str ("2025-01-01T00:00:00Z")),
     ("bearing", Json.num 0),
     ("speed", Json.num 0),
     ("ignition", Json.bool false),
     ("odometer", Json.num 0),
     ("altitude", Json.num 0),
     ("location", Json.obj
        [("updated", Json.str ("2025-01-01T00:00:00Z")),
         ("longitude", Json.num (mkRat 185 10)),
         ("latitude", Json.num (mkRat (-339) 10)),
         ("position_description", Json.str ("Home"))])]

/-- The invariant maintained by every event step, tying together the
marker ref, the map ref, the flyTo record and lastPosition: a marker
implies a map; the map records exactly one flyTo iff a marker exists;
and lastPosition always mirrors the coordinates currently applied to
the marker. -/
def Inv (s : AppState) : Prop :=
  (s.marker.isSome = true → s.mapH.isSome = true) ∧
  flyCount s = (if s.marker.isSome then 1 else 0) ∧
  s.lastPosition = Option.map Marker.lngLat s.marker

/-- The initial state satisfies the invariant. -/
theorem inv_initState : Inv initState := by
  refine ⟨?_, ?_, ?_⟩ <;> simp [Inv, initState, flyCount]

/-- The marker-update effect preserves the invariant. -/
theorem inv_applyMarkerEffect (s : AppState) (h : Inv s) : Inv (applyMarkerEffect s) := by
  obtain ⟨h1, h2, h3⟩ := h
  cases hm : s.mapH with
  | none =>
      cases hv : s.vehicleData <;>
        refine ⟨?_, ?_, ?_⟩ <;>
          simp_all [Inv, flyCount, applyMarkerEffect, updateMarkerEffect]
  | some m =>
      cases hv : s.vehicleData with
      | none =>
          refine ⟨?_, ?_, ?_⟩ <;>
            simp_all [Inv, flyCount, applyMarkerEffect, updateMarkerEffect]
      | some vd =>
          cases hmk : s.marker with
          | none =>
              refine ⟨?_, ?_, ?_⟩ <;>
                simp_all [Inv, flyCount, applyMarkerEffect, updateMarkerEffect]
          | some mk =>
              by_cases hpc : positionChanged s.lastPosition vd.data.location.longitude
                  vd.data.location.latitude = true
              · refine ⟨?_, ?_, ?_⟩ <;>
                  simp_all [Inv, flyCount, applyMarkerEffect, updateMarkerEffect]
              · refine ⟨?_, ?_, ?_⟩ <;>
                  simp_all [Inv, flyCount, applyMarkerEffect, updateMarkerEffect]

/-- Every event step preserves the invariant. -/
theorem inv_step (s : AppState) (e : Event) (h : Inv s) : Inv (step s e) := by
  obtain ⟨h1, h2, h3⟩ := h
  cases e with
  | mount =>
      by_cases hm : s.mounted
      · simpa [step, hm] using ⟨h1, h2, h3⟩
      · by_cases hmap : s.mapH.isSome
        · refine ⟨?_, ?_, ?_⟩ <;> simp_all [step, flyCount]
        · cases hmk : s.marker with
          | none =>
              refine ⟨?_, ?_, ?_⟩ <;>
                simp_all [step, flyCount, initMap, Option.isSome_iff_exists]
          | some mk => simp_all
  | mapLoad =>
      by_cases hm : s.mounted <;>
        refine ⟨?_, ?_, ?_⟩ <;> simp_all [step, flyCount]
  | fetchSettle b =>
      by_cases hm : s.mounted
      · cases hr : runFetch b with
        | ok d =>
            have hpre : Inv { s with vehicleData := some d, error := none } := by
              refine ⟨?_, ?_, ?_⟩ <;> simp_all [flyCount]
            simpa [step, hm, hr] using inv_applyMarkerEffect _ hpre
        | error t =>
            refine ⟨?_, ?_, ?_⟩ <;> simp_all [step, flyCount]
      · simpa [step, hm] using ⟨h1, h2, h3⟩
  | tick => simpa [step] using ⟨h1, h2, h3⟩
  | unmount =>
      cases hmp : s.mapH with
      | none => refine ⟨?_, ?_, ?_⟩ <;> simp_all [step, flyCount]
      | some m => refine ⟨?_, ?_, ?_⟩ <;> simp_all [step, flyCount]

/-- Every run from the initial state satisfies the invariant. -/
theorem inv_run (evts : List Event) : Inv (run initState evts) := by
  suffices h : ∀ s, Inv s → Inv (run s evts) from h initState inv_initState
  induction evts with
  | nil => exact fun s hs => hs
  | cons e rest ih =>
      intro s hs
      exact ih (step s e) (inv_step s e hs)

/-- C1: for every invocation of fetchVehicleData, if the fetch succeeds
the held snapshot is replaced by the new response and any error message
is cleared; if the fetch fails (timeout, non-2xx, network, or parse
error — every error branch of runFetch), the previous snapshot is left
unchanged and only the error message is set. -/
theorem fetch_success_replaces_snapshot_failure_preserves
    (vehicleData : Option VehicleData) (error : Option String) (b : FetchBehavior) :
    (∀ d, runFetch b = Except.ok d →
        fetchVehicleData vehicleData error b = (some d, none, some d)) ∧
    (∀ t, runFetch b = Except.error t →
        fetchVehicleData vehicleData error b = (vehicleData, some (errorMessageFor t), none)) := by
  constructor <;> intro x hx <;> simp [fetchVehicleData, hx]

/-- C1 witness: a successful fetch of fixEx replaces the snapshot and
clears a previously set error; a timed-out fetch keeps the snapshot and
only sets the error. -/
theorem fetch_success_replaces_snapshot_failure_preserves_witness :
    fetchVehicleData none (some ("Failed to fetch vehicle data"))
        (FetchBehavior.respond true (Except.ok fixEx)) = (some fixEx, none, some fixEx) ∧
    fetchVehicleData (some fixEx) none FetchBehavior.timeout =
      (some fixEx, some (errorMessageFor abortError), none) :=
  ⟨(fetch_success_replaces_snapshot_failure_preserves none
      (some ("Failed to fetch vehicle data")) _).1 fixEx rfl,
   (fetch_success_replaces_snapshot_failure_preserves (some fixEx) none _).2 abortError rfl⟩

/-- C2 counterexample: two non-timeout failure kinds do not share one
single error message — a non-2xx response sets the fixed message of the
thrown Error while a network rejection sets the rejection's own message,
and the two strings differ. -/
theorem nontimeout_failures_differ_in_message :
    (fetchVehicleData none none (FetchBehavior.respond false (Except.error Thrown.other))).2.1 =
      some ("Failed to fetch vehicle data") ∧
    (fetchVehicleData none none
        (FetchBehavior.reject (Thrown.jsError ("TypeError") ("Failed to fetch")))).2.1 =
      some ("Failed to fetch") ∧
    ("Failed to fetch vehicle data" : String) ≠ ("Failed to fetch" : String) :=
  ⟨by decide, by decide, by decide⟩

/-- C2 amended: a fetch aborted by the 5-second deadline produces the
distinct fixed timeout message, while every other failure takes the one
generic catch branch that sets the thrown error's own message ("Failed
to fetch vehicle data" for a non-2xx response, the thrown message for
network and parse errors, "Unknown error" for a non-Error value) — so
non-timeout kinds are handled uniformly but do not share a single
message string. -/
theorem timeout_distinct_generic_branch_uses_thrown_message
    (vehicleData : Option VehicleData) (error : Option String) :
    ((fetchVehicleData vehicleData error FetchBehavior.timeout).2.1 =
        some ("Request timeout - API is slow")) ∧
    (∀ parsed, (fetchVehicleData vehicleData error (FetchBehavior.respond false parsed)).2.1 =
        some ("Failed to fetch vehicle data")) ∧
    (∀ name msg, name ≠ "AbortError" →
        (fetchVehicleData vehicleData error (FetchBehavior.reject (Thrown.jsError name msg))).2.1 =
          some msg) ∧
    (∀ name msg, name ≠ "AbortError" →
        (fetchVehicleData vehicleData error
            (FetchBehavior.respond true (Except.error (Thrown.jsError name msg)))).2.1 =
          some msg) ∧
    ((fetchVehicleData vehicleData error (FetchBehavior.reject Thrown.other)).2.1 =
        some ("Unknown error")) := by
  refine ⟨by simp [fetchVehicleData, runFetch, errorMessageFor, abortError],
          fun parsed => by simp [fetchVehicleData, runFetch, errorMessageFor],
          ?_, ?_, by simp [fetchVehicleData, runFetch, errorMessageFor]⟩ <;>
    intro name msg h <;> simp [fetchVehicleData, runFetch, errorMessageFor, h]

/-- C2 amended witness: at concrete inputs, the timeout branch and a
TypeError network rejection produce their respective messages. -/
theorem timeout_distinct_generic_branch_uses_thrown_message_witness :
    (fetchVehicleData none none FetchBehavior.timeout).2.1 =
      some ("Request timeout - API is slow") ∧
    (fetchVehicleData none none
        (FetchBehavior.reject (Thrown.jsError ("TypeError") ("Failed to fetch")))).2.1 =
      some ("Failed to fetch") :=
  ⟨(timeout_distinct_generic_branch_uses_thrown_message none none).1,
   (timeout_distinct_generic_branch_uses_thrown_message none none).2.2.1
     ("TypeError") ("Failed to fetch") (by decide)⟩

/-- C3 counterexample: the interval effect installs the 15-second timer
at mount, unconditionally; with the map load event (which triggers the
first manual fetch) arriving at 20000 ms, the first interval firing at
15000 ms is NOT after the first manual fetch, refuting "starting only
after the first manual fetch". -/
theorem interval_not_gated_on_first_manual_fetch :
    schedulerFires none 15000 = true ∧ ¬ (firstManualFetchTime 20000 < 15000) :=
  ⟨by decide, by decide⟩

/-- C3 amended: the poll timer is installed when the component mounts
and fires fetchVehicleData every 15 seconds from mount — not gated on
the first manual fetch or the map's ready event — and the interval is
cleared on view teardown (no firing at or after the unmount time, and
the unmount step deactivates the interval). -/
theorem poll_interval_from_mount_cleared_on_teardown :
    (∀ n : ℕ, schedulerFires none (pollIntervalMs * (n + 1)) = true) ∧
    (∀ u t : ℕ, u ≤ t → schedulerFires (some u) t = false) ∧
    (∀ (u : Option ℕ) (t : ℕ), schedulerFires u t = true →
        t % pollIntervalMs = 0 ∧ t ≠ 0) ∧
    (∀ s : AppState, (step s Event.unmount).intervalActive = false) := by
  refine ⟨?_, ?_, ?_, ?_⟩
  · intro n
    have h1 : 15000 * (n + 1) % 15000 = 0 := Nat.mul_mod_right 15000 (n + 1)
    have h2 : 15000 * (n + 1) ≠ 0 := by omega
    simp only [schedulerFires, pollIntervalMs]
    simp [h1, h2]
  · intro u t h
    have hnot : ¬ (t < u) := by omega
    simp [schedulerFires, hnot]
  · intro u t h
    cases u with
    | none =>
        simp only [schedulerFires, Bool.and_true, Bool.and_eq_true, decide_eq_true_eq] at h
        exact h
    | some u =>
        simp only [schedulerFires, Bool.and_eq_true, decide_eq_true_eq] at h
        exact h.1
  · intro s
    simp [step]

/-- C3 amended witness: the first tick fires at 15000 ms of an unbounded
run, and a tick due exactly at the unmount time does not fire. -/
theorem poll_interval_from_mount_cleared_on_teardown_witness :
    schedulerFires none (pollIntervalMs * (0 + 1)) = true ∧
    schedulerFires (some 15000) 15000 = false :=
  ⟨poll_interval_from_mount_cleared_on_teardown.1 0,
   poll_interval_from_mount_cleared_on_teardown.2.1 15000 15000 (Nat.le_refl 15000)⟩

/-- C4 counterexample: a body laid out exactly as the spec's section 3
VehicleStatus (status fields at top level) satisfies the spec shape but
is NOT the shape the frontend's VehicleData interface describes — the
code requires the fields one level down under a top-level data member. -/
theorem spec_flat_shape_rejected_by_code_shape :
    specVehicleStatusShape jFlat = true ∧ matchesVehicleDataShape jFlat = false :=
  ⟨by decide, by decide⟩

/-- C4 amended: the JSON body the frontend parses is a top-level object
whose data member holds the section 3 VehicleStatus shape — for every
JSON value j, wrapping j under a single data key satisfies the code's
VehicleData shape exactly when j satisfies the spec's flat VehicleStatus
shape. -/
theorem code_shape_is_spec_shape_under_data_key (j : Json) :
    matchesVehicleDataShape (Json.obj [(("data" : String), j)]) = specVehicleStatusShape j := by
  have hgf : getField [(("data" : String), j)] ("data") = some j := by simp [getField]
  simp only [matchesVehicleDataShape, hgf]
  cases j with
  | obj fs =>
      simp only [matchesFixShape, specVehicleStatusShape]
      cases hl : getField fs ("location") with
      | none => rfl
      | some l => cases l <;> simp [matchesLocationShape]
  | null => rfl
  | bool b => rfl
  | num q => rfl
  | str s => rfl
  | arr es => rfl

/-- C5: across every event sequence of one view lifetime, the map has
recorded exactly one flyTo when the marker exists and none before it is
created — the fly-to animation happens exactly once, at marker creation
on the first successful fetch, and never on any later fetch. -/
theorem flyTo_exactly_once_per_view_lifetime (evts : List Event) :
    flyCount (run initState evts) = if (run initState evts).marker.isSome then 1 else 0 :=
  (inv_run evts).2.1

/-- C6: a successful fetch whose coordinates equal the last rendered
coordinates leaves the marker-update step a no-op — the marker is
returned untouched (in particular its setLngLat count is unchanged),
lastPosition is not modified, and the map is untouched. -/
theorem marker_update_noop_when_position_unchanged
    (m : MapHandle) (vd : VehicleData) (mk : Marker) (p : ℚ × ℚ)
    (h1 : p.1 = vd.data.location.longitude) (h2 : p.2 = vd.data.location.latitude) :
    updateMarkerEffect (some m) (some vd) (some mk) (some p) = (some m, some mk, some p) := by
  simp [updateMarkerEffect, positionChanged, h1, h2]

/-- C6 witness: the effect at fixEx with the marker already at fixEx's
coordinates changes nothing. -/
theorem marker_update_noop_when_position_unchanged_witness :
    updateMarkerEffect (some initMap) (some fixEx) (some markerEx)
        (some (mkRat 185 10, mkRat (-339) 10)) =
      (some initMap, some markerEx, some (mkRat 185 10, mkRat (-339) 10)) :=
  marker_update_noop_when_position_unchanged initMap fixEx markerEx _ rfl rfl

/-- C7: a successful fetch whose coordinates differ from the last
rendered coordinates while a marker exists performs exactly one marker
position update — the setLngLat count rises by exactly one, the popup,
the element HTML and the ignition-keyed color are unchanged, and the map
(viewport, flyTo record) is untouched. -/
theorem marker_update_moves_once_keeps_popup_color_viewport
    (m : MapHandle) (vd : VehicleData) (mk : Marker) (p : ℚ × ℚ)
    (h : p.1 ≠ vd.data.location.longitude ∨ p.2 ≠ vd.data.location.latitude) :
    updateMarkerEffect (some m) (some vd) (some mk) (some p) =
      (some m,
       some { elementHtml := mk.elementHtml
              color := mk.color
              lngLat := (vd.data.location.longitude, vd.data.location.latitude)
              popup := mk.popup
              setLngLatCalls := mk.setLngLatCalls + 1 },
       some (vd.data.location.longitude, vd.data.location.latitude)) := by
  have hp : positionChanged (some p) vd.data.location.longitude
      vd.data.location.latitude = true := by
    simp only [positionChanged, Bool.or_eq_true, bne_iff_ne, ne_eq]
    tauto
  simp [updateMarkerEffect, hp]

/-- C7 witness: moving the fixEx marker from a different position
performs the single position update and preserves the popup and color. -/
theorem marker_update_moves_once_keeps_popup_color_viewport_witness :
    updateMarkerEffect (some initMap) (some fixEx) (some markerEx)
        (some ((10 : ℚ), (20 : ℚ))) =
      (some initMap,
       some { elementHtml := markerEx.elementHtml
              color := markerEx.color
              lngLat := (fixEx.data.location.longitude, fixEx.data.location.latitude)
              popup := markerEx.popup
              setLngLatCalls := markerEx.setLngLatCalls + 1 },
       some (fixEx.data.location.longitude, fixEx.data.location.latitude)) :=
  marker_update_moves_once_keeps_popup_color_viewport initMap fixEx markerEx _
    (Or.inl (by decide))

/-- Helper: the marker-update effect never removes an existing marker. -/
theorem marker_isSome_applyMarkerEffect (s : AppState)
    (h : s.marker.isSome = true) : (applyMarkerEffect s).marker.isSome = true := by
  obtain ⟨mk, hmk⟩ := Option.isSome_iff_exists.mp h
  cases hm : s.mapH with
  | none => simp [applyMarkerEffect, updateMarkerEffect, hm, h]
  | some m =>
      cases hv : s.vehicleData with
      | none => simp [applyMarkerEffect, updateMarkerEffect, hm, hv, h]
      | some vd =>
          by_cases hpc : positionChanged s.lastPosition vd.data.location.longitude
              vd.data.location.latitude = true <;>
            simp [applyMarkerEffect, updateMarkerEffect, hm, hv, hmk, hpc]

/-- Helper: no single event step removes an existing marker. -/
theorem marker_isSome_step (s : AppState) (e : Event)
    (h : s.marker.isSome = true) : (step s e).marker.isSome = true := by
  cases e with
  | mount =>
      by_cases hm : s.mounted
      · simpa [step, hm] using h
      · by_cases hmap : s.mapH.isSome <;> simp [step, hm, hmap, h]
  | mapLoad => by_cases hm : s.mounted <;> simp [step, hm, h]
  | fetchSettle b =>
      by_cases hm : s.mounted
      · cases hr : runFetch b with
        | ok d =>
            simp only [step, hm, if_true, hr]
            exact marker_isSome_applyMarkerEffect _ (by simpa using h)
        | error t => simp [step, hm, hr, h]
      · simp [step, hm, h]
  | tick => simpa [step] using h
  | unmount => simp [step, h]

/-- C8: the Absent to Present transition of the marker presenter is
one-way and permanent — from any state in which the marker exists, no
sequence of later events (fetches, ticks, map load, unmount) removes it. -/
theorem marker_absent_to_present_permanent (s : AppState) (evts : List Event)
    (h : s.marker.isSome = true) : (run s evts).marker.isSome = true := by
  induction evts generalizing s with
  | nil => simpa [run] using h
  | cons e rest ih => exact ih (step s e) (marker_isSome_step s e h)

/-- C8 witness: after the marker is created by the first successful
fetch, an unmount, a tick and a failing fetch leave it present. -/
theorem marker_absent_to_present_permanent_witness :
    (run stateWithMarker
        [Event.unmount, Event.tick, Event.fetchSettle FetchBehavior.timeout]).marker.isSome
      = true :=
  marker_absent_to_present_permanent stateWithMarker _ (by decide)

/-- C9: the first mount creates the map with the fixed configuration of
the source — a single raster tile source, the fixed default center
(18.50841, -33.827274), zoom range [2, 19], initial zoom 12, a
navigation control anchored bottom-right — and a mount with the map ref
already set does not recreate it. -/
theorem map_initialized_once_with_fixed_config :
    initMap.sources = [osmTiles] ∧
    osmTiles.srcType = "raster" ∧
    initMap.center = (mkRat 1850841 100000, mkRat (-33827274) 1000000) ∧
    initMap.minZoom = 2 ∧
    initMap.maxZoom = 19 ∧
    initMap.zoom = 12 ∧
    initMap.controls = [("NavigationControl", "bottom-right")] ∧
    (step initState Event.mount).mapH = some initMap ∧
    (∀ s : AppState, s.mapH.isSome = true → (step s Event.mount).mapH = s.mapH) := by
  refine ⟨rfl, rfl, rfl, rfl, rfl, rfl, rfl, ?_, ?_⟩
  · simp [step, initState]
  · intro s hs
    by_cases hm : s.mounted <;> simp [step, hm, hs]

/-- C9 witness: a second mount event leaves the created map in place. -/
theorem map_initialized_once_with_fixed_config_witness :
    (step (step initState Event.mount) Event.mount).mapH = (step initState Event.mount).mapH :=
  map_initialized_once_with_fixed_config.2.2.2.2.2.2.2.2 (step initState Event.mount) (by decide)

/-- C10: invariant of every marker-update pass — lastPosition always
equals the coordinates currently applied to the marker (none before a
marker exists), so the changed-position check compares the incoming fix
against the marker's actual rendered position. -/
theorem lastPosition_mirrors_marker_coordinates (evts : List Event) :
    (run initState evts).lastPosition =
      Option.map Marker.lngLat (run initState evts).marker :=
  (inv_run evts).2.2

end LiveMapper
